import Mathlib

/-!
Shallow embedding of the kinematic character movement and turn-based combat
core of the elysium-descent game client.

Sources embedded here:
- src/client/src/screens/fight.rs          (combat turn arbiter)
- src/client/src/systems/character_controller.rs (movement engine)
- src/client/src/systems/enemy_ai.rs       (enemy approach AI)
- src/client/src/constants/animations.rs   (animation index constants)

Modelling conventions:
- f32 values are modelled as rationals where the code only compares and
  copies them (the combat state machine and timer), and as reals where the
  code does square roots and trigonometry (the movement engine and enemy AI).
- Bevy ECS resources and components become plain record types; one system
  invocation becomes one pure state-transition function.  Query results that
  may be empty (missing player or enemy actor) become Option inputs, and a
  missing actor makes the corresponding function a no-op, as in the code.
- The Euclidean distance between the two actor transforms, computed by the
  engine from positions, is passed to the arbiter as a scalar input.
- External library mathematics that the repository merely calls (quaternion
  slerp and from-rotation-arc from glam, the animation player finished
  query) are parameters of the model.
-/

namespace ElysiumDescent

/-! ## Combat turn arbiter (src/client/src/screens/fight.rs) -/

/-- CombatTurn from fight.rs: who owns the current combat turn.
The Rust default is Enemy. -/
inductive CombatTurn where
  | enemy
  | player
  | outOfRange
  deriving DecidableEq, Repr

/-- CombatState resource from fight.rs lines 263-272. -/
structure CombatState where
  current_turn : CombatTurn
  enemy_attack_done : Bool
  player_waiting_for_input : Bool
  in_range : Bool
  enemy_attack_finished : Bool
  player_attack_finished : Bool
  player_turn_start_time : ℚ
  deriving DecidableEq, Repr

/-- Rust Default for CombatState: all flags false, turn Enemy, time 0. -/
def CombatState.default : CombatState :=
  { current_turn := .enemy
    enemy_attack_done := false
    player_waiting_for_input := false
    in_range := false
    enemy_attack_finished := false
    player_attack_finished := false
    player_turn_start_time := 0 }

/-- TurnTimer resource from fight.rs lines 275-286, reduced to the parts of
the bevy Timer the code touches: elapsed time and total duration.  The code
only ever constructs timers and resets them; it never ticks or reads them. -/
structure TurnTimer where
  elapsed : ℚ
  duration : ℚ
  deriving DecidableEq, Repr

/-- Timer.from_seconds: a fresh timer with nothing elapsed. -/
def TurnTimer.fromSeconds (d : ℚ) : TurnTimer := { elapsed := 0, duration := d }

/-- Timer.reset: sets elapsed time back to zero, keeps the duration. -/
def TurnTimer.reset (t : TurnTimer) : TurnTimer := { t with elapsed := 0 }

/-- initialize_combat from fight.rs lines 297-306: the state established when
the fight scene is entered. -/
def initialize_combat : CombatState × TurnTimer :=
  ({ current_turn := .enemy
     enemy_attack_done := false
     player_waiting_for_input := false
     in_range := false
     enemy_attack_finished := false
     player_attack_finished := false
     player_turn_start_time := 0 },
   TurnTimer.fromSeconds 2)

/-- The attack range used by manage_turn_based_combat (fight.rs line 333),
matching the EnemyAI default attack_range. -/
def attack_range : ℚ := 3

/-- manage_turn_based_combat from fight.rs lines 315-386.  `dist` is the
distance between the player and enemy transforms as computed by the engine;
`none` means one of the two actors is missing, in which case the system is a
no-op for the tick. -/
def manage_turn_based_combat (s : CombatState) (t : TurnTimer) (dist : Option ℚ) :
    CombatState × TurnTimer :=
  match dist with
  | none => (s, t)
  | some d =>
    let players_in_range := decide (d ≤ attack_range)
    let was_in_range := s.in_range
    let s := { s with in_range := players_in_range }
    if !players_in_range then
      if s.current_turn ≠ CombatTurn.outOfRange then
        ({ s with current_turn := .outOfRange
                  enemy_attack_done := false
                  player_waiting_for_input := false },
         t.reset)
      else (s, t)
    else
      let (s, t) :=
        if !was_in_range then
          ({ s with current_turn := .enemy
                    enemy_attack_done := false
                    player_waiting_for_input := false },
           (TurnTimer.fromSeconds 2).reset)
        else (s, t)
      match s.current_turn with
      | .enemy =>
        if s.enemy_attack_finished then
          ({ s with current_turn := .player
                    enemy_attack_done := true
                    player_waiting_for_input := true
                    enemy_attack_finished := false
                    player_turn_start_time := 0 },
           t)
        else (s, t)
      | .player =>
        if s.player_attack_finished then
          ({ s with current_turn := .enemy
                    enemy_attack_done := false
                    player_waiting_for_input := false
                    player_attack_finished := false },
           t)
        else (s, t)
      | .outOfRange => (s, t)

/-- detect_player_attack from fight.rs lines 443-462.  `playerPresent` models
whether the player actor query succeeds; fm1 and fm2 are the attack-intent
flags fight_move_1 and fight_move_2 observed on the player AnimationState. -/
def detect_player_attack (s : CombatState) (playerPresent : Bool) (fm1 fm2 : Bool) :
    CombatState :=
  if playerPresent
      ∧ s.current_turn = CombatTurn.player
      ∧ s.in_range
      ∧ s.player_waiting_for_input
      ∧ (fm1 ∨ fm2) then
    { s with player_waiting_for_input := false }
  else s

/-- Enemy attack animation index, constants/animations.rs lines 17-23. -/
def enemy_ATTACK : Nat := 3

/-- detect_enemy_attack_finished from fight.rs lines 465-487.  `enemyPresent`
models the enemy query; `currentAnimation` is the AnimationState field of the
enemy; `allFinished` is the animation player all_finished query, `none` when
the animation player lookup fails. -/
def detect_enemy_attack_finished (s : CombatState) (enemyPresent : Bool)
    (currentAnimation : Nat) (allFinished : Option Bool) : CombatState :=
  if enemyPresent ∧ currentAnimation = enemy_ATTACK ∧ allFinished = some true then
    { s with enemy_attack_finished := true }
  else s

/-- track_player_turn_time from fight.rs lines 490-500: records when the
player turn started; performs no turn transition. -/
def track_player_turn_time (s : CombatState) (timeNow : ℚ) : CombatState :=
  if s.current_turn = CombatTurn.player ∧ s.player_waiting_for_input then
    if s.player_turn_start_time = 0 then
      { s with player_turn_start_time := timeNow }
    else s
  else s

/-- Per-tick inputs observed by the combat systems of the fight scene. -/
structure CombatInputs where
  dist : Option ℚ
  playerPresent : Bool
  fm1 : Bool
  fm2 : Bool
  enemyPresent : Bool
  enemyAnimation : Nat
  allFinished : Option Bool
  timeNow : ℚ

/-- One tick of the fight-scene combat systems over the CombatState resource,
in the registration order of the Update schedule in fight.rs (lines 27-40):
manage_turn_based_combat, then detect_player_attack, then
detect_enemy_attack_finished, then track_player_turn_time.
handle_enemy_turn and handle_player_turn do not write CombatState. -/
def combat_tick (s : CombatState) (t : TurnTimer) (i : CombatInputs) :
    CombatState × TurnTimer :=
  let (s, t) := manage_turn_based_combat s t i.dist
  let s := detect_player_attack s i.playerPresent i.fm1 i.fm2
  let s := detect_enemy_attack_finished s i.enemyPresent i.enemyAnimation i.allFinished
  let s := track_player_turn_time s i.timeNow
  (s, t)

/-! ## Movement engine (src/client/src/systems/character_controller.rs) -/

/-- A three-component velocity vector, modelling avian LinearVelocity. -/
structure Vec3R where
  x : ℝ
  y : ℝ
  z : ℝ

/-- The per-actor state the movement systems read and write: the linear
velocity and the yaw angle of the transform (rotation is locked to yaw by
LockedAxes::ROTATION_LOCKED, so the transform rotation is a pure yaw). -/
structure CharState where
  vel : Vec3R
  yaw : ℝ

/-- MovementAction event from character_controller.rs lines 29-33. -/
inductive MovementAction where
  | move (dx dy : ℝ)
  | jump

/-- Local constant rotation_speed in movement (line 209). -/
def rotation_speed : ℝ := 2.5

/-- Local constant max_speed in movement (line 210). -/
def max_speed : ℝ := 54

/-- MovementBundle::default() (lines 90-94): acceleration 5000.0,
damping 0.9, jump_impulse 7.0. -/
def default_acceleration : ℝ := 5000
def default_damping_factor : ℝ := 0.9
def default_jump_impulse : ℝ := 7

/-- update_grounded from character_controller.rs lines 180-194: the Grounded
marker is present exactly when the vertical velocity magnitude is below 0.1. -/
noncomputable def update_grounded (v : Vec3R) : Bool :=
  decide (|v.y| < (0.1 : ℝ))

/-- The horizontal speed read by the clamp in movement (line 238):
sqrt (x^2 + z^2) of the linear velocity. -/
noncomputable def hSpeed (v : Vec3R) : ℝ :=
  Real.sqrt (v.x ^ 2 + v.z ^ 2)

/-- The maximum-horizontal-speed clamp from movement (lines 237-243): when
the horizontal speed exceeds max_speed, both horizontal axes are rescaled by
max_speed / horizontal_speed. -/
noncomputable def clamp_horizontal (v : Vec3R) : Vec3R :=
  let horizontal_speed := hSpeed v
  if horizontal_speed > max_speed then
    let scale := max_speed / horizontal_speed
    { x := v.x * scale, y := v.y, z := v.z * scale }
  else v

/-- The Move branch of movement (lines 217-243).  rotate_y adds the rotation
amount to the yaw; forward is the yaw image of -Z and right the yaw image of
+X, so forward = (-sin yaw, 0, -cos yaw) and right = (cos yaw, 0, -sin yaw). -/
noncomputable def move_action (acc dt dx dy : ℝ) (s : CharState) : CharState :=
  let yaw := if dx ≠ 0 then s.yaw + (-dx * rotation_speed * dt) else s.yaw
  let fwdx := -Real.sin yaw
  let fwdz := -Real.cos yaw
  let rgtx := Real.cos yaw
  let rgtz := -Real.sin yaw
  let mdx := fwdx * (-dy) + rgtx * dx
  let mdz := fwdz * (-dy) + rgtz * dx
  let acceleration := acc * dt
  { vel := clamp_horizontal
      { x := mdx * acceleration * 10, y := s.vel.y, z := mdz * acceleration * 10 }
    yaw := yaw }

/-- One MovementAction processed by movement (lines 212-253): Move rewrites
the horizontal velocity, Jump sets the vertical velocity to the jump impulse
only when the Grounded marker is present, and otherwise leaves the state
untouched. -/
noncomputable def movement_step (acc jump_impulse dt : ℝ) (grounded : Bool)
    (s : CharState) (ev : MovementAction) : CharState :=
  match ev with
  | .move dx dy => move_action acc dt dx dy s
  | .jump =>
    if grounded then { s with vel := { x := s.vel.x, y := jump_impulse, z := s.vel.z } }
    else s

/-- The whole movement system for one tick: all MovementAction events of the
tick folded in order over the actor state. -/
noncomputable def movement_phase (acc jump_impulse dt : ℝ) (grounded : Bool)
    (evs : List MovementAction) (s : CharState) : CharState :=
  evs.foldl (movement_step acc jump_impulse dt grounded) s

/-- apply_movement_damping from character_controller.rs lines 256-280.  The
query binds the per-actor MovementDampingFactor but the body multiplies the
horizontal components by the literal 0.6; when the Grounded marker is present
the vertical velocity is clamped to zero from above and below and then the
constant 1.0 downward stick bias is subtracted; when airborne with vertical
speed at least 0.1, gravity 9.8 * 0.016 is subtracted. -/
noncomputable def apply_movement_damping (damping_factor : ℝ) (grounded : Bool)
    (v : Vec3R) : Vec3R :=
  let x := v.x * 0.6
  let z := v.z * 0.6
  let y :=
    if grounded then
      let y1 := if v.y > 0 then 0 else v.y
      let y2 := if y1 < 0 then 0 else y1
      y2 - 1
    else
      if |v.y| ≥ 0.1 then v.y - 9.8 * 0.016 else v.y
  { x := x, y := y, z := z }

/-- One tick of the chained character-controller systems
(CharacterControllerPlugin::build, lines 10-25): update_grounded computes the
Grounded marker from the start-of-tick velocity, movement consumes the tick
events, and apply_movement_damping runs on the result with the same marker. -/
noncomputable def char_tick (acc jump_impulse damping_factor dt : ℝ)
    (evs : List MovementAction) (s : CharState) : CharState :=
  let grounded := update_grounded s.vel
  let s1 := movement_phase acc jump_impulse dt grounded evs s
  { s1 with vel := apply_movement_damping damping_factor grounded s1.vel }

/-- A run of consecutive simulation ticks of the character controller: each
entry carries the delta time of the tick and the movement events consumed in
that tick. -/
noncomputable def run_ticks (acc jump_impulse damping_factor : ℝ)
    (ticks : List (ℝ × List MovementAction)) (s : CharState) : CharState :=
  ticks.foldl
    (fun st tk => char_tick acc jump_impulse damping_factor tk.1 tk.2 st) s

/-! ## Enemy approach AI (src/client/src/systems/enemy_ai.rs) -/

/-- Euclidean length of a 3-vector, used for Vec3::distance. -/
noncomputable def norm3 (x y z : ℝ) : ℝ :=
  Real.sqrt (x ^ 2 + y ^ 2 + z ^ 2)

/-- f32::lerp(a, b, t) = a + (b - a) * t. -/
def lerpR (a b t : ℝ) : ℝ := a + (b - a) * t

/-- Quaternion operations the enemy AI calls from the glam library.  They are
external collaborators of this core, so the model takes them as parameters
over an abstract quaternion type. -/
structure QuatOps (Q : Type) where
  slerp : Q → Q → ℝ → Q
  fromRotationArc : ℝ × ℝ × ℝ → ℝ × ℝ × ℝ → Q

/-- The enemy actor as the AI movement system sees it: transform position and
rotation, linear velocity, the EnemyAI component, and the forward_hold_time
field of the AnimationState the system writes. -/
structure EnemyActor (Q : Type) where
  posx : ℝ
  posy : ℝ
  posz : ℝ
  rot : Q
  velx : ℝ
  vely : ℝ
  velz : ℝ
  ai_attack_range : ℝ
  ai_move_speed : ℝ
  is_moving : Bool
  forward_hold_time : ℝ

/-- The turn-based-combat test from enemy_ai_movement lines 112-119: a
CombatState resource is present, in_range is set, and the turn is Enemy or
Player. -/
def in_turn_based_combat (combat : Option CombatState) : Bool :=
  match combat with
  | some cs =>
    cs.in_range
      && (decide (cs.current_turn = CombatTurn.enemy)
          || decide (cs.current_turn = CombatTurn.player))
  | none => false

/-- enemy_ai_movement from enemy_ai.rs lines 75-187.  `playerPos` is the
player transform translation; `none` means the player query fails and the
whole system is a no-op.  In the combat branch the velocity is zeroed, the
rotation is slerped toward facing the player, and translation.y is clamped
to the ground constant -1.65; outside combat the chase or idle branch runs
according to the distance to the player. -/
noncomputable def enemy_ai_movement {Q : Type} (ops : QuatOps Q) (dt : ℝ)
    (playerPos : Option (ℝ × ℝ × ℝ)) (combat : Option CombatState)
    (e : EnemyActor Q) : EnemyActor Q :=
  match playerPos with
  | none => e
  | some p =>
    let dxp := p.1 - e.posx
    let dyp := p.2.1 - e.posy
    let dzp := p.2.2 - e.posz
    let distance_to_player := norm3 dxp dyp dzp
    if in_turn_based_combat combat then
      let n := norm3 dxp dyp dzp
      let d2n := Real.sqrt ((dxp / n) ^ 2 + (dzp / n) ^ 2)
      let target_rotation :=
        ops.fromRotationArc (0, 0, 1) (dxp / n / d2n, 0, dzp / n / d2n)
      { e with
          velx := 0, vely := 0, velz := 0
          forward_hold_time := 0
          rot := ops.slerp e.rot target_rotation (3 * dt)
          posy := -1.65 }
    else
      if distance_to_player > e.ai_attack_range then
        let n := norm3 dxp dyp dzp
        let tx := dxp / n * e.ai_move_speed
        let tz := dzp / n * e.ai_move_speed
        let velx := lerpR e.velx tx (5 * dt)
        let velz := lerpR e.velz tz (5 * dt)
        let d2n := Real.sqrt ((dxp / n) ^ 2 + (dzp / n) ^ 2)
        let target_rotation :=
          ops.fromRotationArc (0, 0, 1) (dxp / n / d2n, 0, dzp / n / d2n)
        let horizontal_speed := Real.sqrt (velx ^ 2 + velz ^ 2)
        { e with
            is_moving := true
            velx := velx, vely := 0, velz := velz
            rot := ops.slerp e.rot target_rotation (3 * dt)
            posy := -1.65
            forward_hold_time :=
              if horizontal_speed > 0.1 then e.forward_hold_time + dt else 0 }
      else
        { e with
            is_moving := false
            velx := 0, vely := 0, velz := 0
            forward_hold_time := 0 }

/-! ## Concrete instances used to settle the claims -/

/-- Trivial quaternion operations, enough to evaluate the enemy AI at a
concrete input (the claims under scrutiny do not depend on the values the
external quaternion library returns). -/
def trivialQuatOps : QuatOps Unit :=
  { slerp := fun q _ _ => q, fromRotationArc := fun _ _ => () }

/-- An enemy actor standing at the origin at ground height 0. -/
def enemyAtOrigin : EnemyActor Unit :=
  { posx := 0, posy := 0, posz := 0, rot := ()
    velx := 0, vely := 0, velz := 0
    ai_attack_range := 3, ai_move_speed := 3
    is_moving := false, forward_hold_time := 0 }

/-- A combat state in the middle of an in-range enemy turn. -/
def enemyTurnInRange : CombatState :=
  { current_turn := .enemy
    enemy_attack_done := false
    player_waiting_for_input := false
    in_range := true
    enemy_attack_finished := false
    player_attack_finished := false
    player_turn_start_time := 0 }

/-- A combat state waiting for player input during an in-range player turn. -/
def playerTurnWaiting : CombatState :=
  { current_turn := .player
    enemy_attack_done := true
    player_waiting_for_input := true
    in_range := true
    enemy_attack_finished := false
    player_attack_finished := false
    player_turn_start_time := 0 }

/-- An out-of-range combat state carrying a stale player_attack_finished
flag (the flag is reachable stale because nothing clears it when leaving
range). -/
def outOfRangeStalePlayerFlag : CombatState :=
  { current_turn := .outOfRange
    enemy_attack_done := false
    player_waiting_for_input := false
    in_range := false
    enemy_attack_finished := false
    player_attack_finished := true
    player_turn_start_time := 0 }

/-- An in-range player turn whose attack has finished, about to hand the
turn back to the enemy. -/
def playerTurnAttackDone : CombatState :=
  { current_turn := .player
    enemy_attack_done := true
    player_waiting_for_input := false
    in_range := true
    enemy_attack_finished := false
    player_attack_finished := true
    player_turn_start_time := 5 }

/-- The per-tick combat inputs of a player-turn tick on which the attack
intent flag fight_move_1 is observed with the given value; the enemy is
idle (animation 2) with its animation player reporting all finished. -/
def playerTurnInputs (fm : Bool) : CombatInputs :=
  { dist := some 1
    playerPresent := true
    fm1 := fm
    fm2 := false
    enemyPresent := true
    enemyAnimation := 2
    allFinished := some true
    timeNow := 10 }

/-! ## Helper lemmas -/

/-- With the Grounded marker present, the damping phase always leaves the
vertical velocity at exactly -1: both signs are clamped to zero and then the
constant downward stick bias 1.0 is subtracted. -/
theorem apply_movement_damping_grounded_y (df : ℝ) (v : Vec3R) :
    (apply_movement_damping df true v).y = -1 := by
  unfold apply_movement_damping
  by_cases h1 : v.y > 0
  · simp [h1]
  · by_cases h2 : v.y < 0
    · simp [h1, h2]
    · have h0 : v.y = 0 := le_antisymm (not_lt.mp h1) (not_lt.mp h2)
      simp [h1, h2, h0]

theorem hSpeed_nonneg (v : Vec3R) : 0 ≤ hSpeed v := Real.sqrt_nonneg _

/-- Scaling both horizontal components by a nonnegative factor scales the
horizontal speed by that factor, whatever happens to the vertical one. -/
theorem hSpeed_scale (v : Vec3R) (c : ℝ) (hc : 0 ≤ c) (y' : ℝ) :
    hSpeed { x := v.x * c, y := y', z := v.z * c } = c * hSpeed v := by
  show Real.sqrt ((v.x * c) ^ 2 + (v.z * c) ^ 2) = c * Real.sqrt (v.x ^ 2 + v.z ^ 2)
  rw [show (v.x * c) ^ 2 + (v.z * c) ^ 2 = c ^ 2 * (v.x ^ 2 + v.z ^ 2) by ring,
    Real.sqrt_mul (sq_nonneg c), Real.sqrt_sq hc]

/-- The horizontal-speed clamp really caps the horizontal speed at max_speed
on every input. -/
theorem clamp_horizontal_hSpeed_le (v : Vec3R) :
    hSpeed (clamp_horizontal v) ≤ max_speed := by
  have h54 : (0 : ℝ) < max_speed := by norm_num [max_speed]
  by_cases h : hSpeed v > max_speed
  · have hvpos : 0 < hSpeed v := lt_trans h54 h
    have hc : 0 ≤ max_speed / hSpeed v := le_of_lt (div_pos h54 hvpos)
    have hcl : clamp_horizontal v
        = { x := v.x * (max_speed / hSpeed v), y := v.y,
            z := v.z * (max_speed / hSpeed v) } := if_pos h
    rw [hcl, hSpeed_scale v (max_speed / hSpeed v) hc v.y,
      div_mul_cancel₀ _ (ne_of_gt hvpos)]
  · have hcl : clamp_horizontal v = v := if_neg h
    rw [hcl]
    exact not_lt.mp h

/-- Each movement event preserves the horizontal speed cap: Move rewrites the
horizontal velocity through the clamp, Jump leaves it alone. -/
theorem movement_step_hSpeed_le (acc jI dt : ℝ) (g : Bool) (s : CharState)
    (ev : MovementAction) (h : hSpeed s.vel ≤ max_speed) :
    hSpeed (movement_step acc jI dt g s ev).vel ≤ max_speed := by
  cases ev with
  | move dx dy =>
    simp only [movement_step, move_action]
    exact clamp_horizontal_hSpeed_le _
  | jump =>
    simp only [movement_step]
    split
    · exact h
    · exact h

/-- The whole movement phase of a tick preserves the horizontal speed cap. -/
theorem movement_phase_hSpeed_le (acc jI dt : ℝ) (g : Bool)
    (evs : List MovementAction) (s : CharState) (h : hSpeed s.vel ≤ max_speed) :
    hSpeed (movement_phase acc jI dt g evs s).vel ≤ max_speed := by
  induction evs generalizing s with
  | nil => simpa [movement_phase] using h
  | cons e rest ih =>
    simp only [movement_phase, List.foldl_cons] at ih ⊢
    exact ih _ (movement_step_hSpeed_le _ _ _ _ _ _ h)

/-- The damping phase scales the horizontal speed by 0.6, hence preserves the
cap. -/
theorem apply_movement_damping_hSpeed_le (df : ℝ) (g : Bool) (v : Vec3R)
    (h : hSpeed v ≤ max_speed) :
    hSpeed (apply_movement_damping df g v) ≤ max_speed := by
  have key : hSpeed (apply_movement_damping df g v) = 0.6 * hSpeed v := by
    simp only [apply_movement_damping]
    exact hSpeed_scale v 0.6 (by norm_num) _
  have hv := hSpeed_nonneg v
  calc hSpeed (apply_movement_damping df g v) = 0.6 * hSpeed v := key
    _ ≤ 1 * hSpeed v := by nlinarith
    _ = hSpeed v := one_mul _
    _ ≤ max_speed := h

/-- One full tick (grounding, movement, damping) preserves the cap. -/
theorem char_tick_hSpeed_le (acc jI df dt : ℝ) (evs : List MovementAction)
    (s : CharState) (h : hSpeed s.vel ≤ max_speed) :
    hSpeed (char_tick acc jI df dt evs s).vel ≤ max_speed := by
  simp only [char_tick]
  exact apply_movement_damping_hSpeed_le _ _ _
    (movement_phase_hSpeed_le _ _ _ _ _ _ h)

/-- Any run of ticks preserves the cap. -/
theorem run_ticks_hSpeed_le (acc jI df : ℝ) (ticks : List (ℝ × List MovementAction))
    (s : CharState) (h : hSpeed s.vel ≤ max_speed) :
    hSpeed (run_ticks acc jI df ticks s).vel ≤ max_speed := by
  induction ticks generalizing s with
  | nil => simpa [run_ticks] using h
  | cons tk rest ih =>
    simp only [run_ticks, List.foldl_cons] at ih ⊢
    exact ih _ (char_tick_hSpeed_le _ _ _ _ _ _ h)

/-! ## Claims -/

/-- Claim C10: for every actor carrying the Grounded marker when the damping
phase runs, vertical velocity at the end of that phase equals exactly -1.0,
regardless of its vertical velocity before the phase — including ticks where
a grounded Jump intent set vertical velocity to the jump impulse earlier in
the same tick, whose upward velocity is overwritten before the tick ends. -/
theorem c10_grounded_stick :
    (∀ (damping_factor : ℝ) (v : Vec3R),
        (apply_movement_damping damping_factor true v).y = -1)
    ∧ (∀ (acc jump_impulse damping_factor dt : ℝ) (s : CharState),
        |s.vel.y| < 0.1 →
        (char_tick acc jump_impulse damping_factor dt [MovementAction.jump] s).vel.y = -1) := by
  constructor
  · exact apply_movement_damping_grounded_y
  · intro acc jI df dt s h
    have hg : update_grounded s.vel = true := by simp [update_grounded, h]
    simp [char_tick, hg, apply_movement_damping_grounded_y]

/-- Witness for C10 at a concrete grounded actor that jumps. -/
theorem c10_witness :
    |(0 : ℝ)| < 0.1
      ∧ (char_tick 5000 7 0.9 (1 / 60) [MovementAction.jump]
          { vel := { x := 0, y := 0, z := 0 }, yaw := 0 }).vel.y = -1 :=
  ⟨by norm_num,
   c10_grounded_stick.2 5000 7 0.9 (1 / 60)
     { vel := { x := 0, y := 0, z := 0 }, yaw := 0 } (by norm_num)⟩

/-- Claim C5: a Jump intent sets the vertical velocity to the jump impulse
exactly when the actor was grounded at the start of the tick (vertical
velocity magnitude below 0.1); when airborne the intent is dropped and no
velocity component or yaw changes. -/
theorem c5_jump_gating :
    ∀ (acc jump_impulse dt : ℝ) (s : CharState),
      (movement_phase acc jump_impulse dt (update_grounded s.vel)
          [MovementAction.jump] s).vel.y
          = (if |s.vel.y| < 0.1 then jump_impulse else s.vel.y)
        ∧ (movement_phase acc jump_impulse dt (update_grounded s.vel)
            [MovementAction.jump] s).vel.x = s.vel.x
        ∧ (movement_phase acc jump_impulse dt (update_grounded s.vel)
            [MovementAction.jump] s).vel.z = s.vel.z
        ∧ (movement_phase acc jump_impulse dt (update_grounded s.vel)
            [MovementAction.jump] s).yaw = s.yaw := by
  intro acc jI dt s
  by_cases h : |s.vel.y| < (0.1 : ℝ)
  · simp [movement_phase, movement_step, update_grounded, h]
  · simp [movement_phase, movement_step, update_grounded, h]

/-- Counterexample to claim C8: with the default per-actor damping factor
0.9 from MovementBundle::default, the damping phase still multiplies the
horizontal components by the literal 0.6, not by 0.9. -/
theorem c8_counterexample :
    (apply_movement_damping default_damping_factor false
        { x := 1, y := 0, z := 1 }).x = 0.6
      ∧ (0.6 : ℝ) ≠ default_damping_factor * 1 := by
  constructor
  · norm_num [apply_movement_damping]
  · norm_num [default_damping_factor]

/-- Claim C8 amended: the damping phase multiplies both horizontal velocity
components by the fixed literal 0.6 for every actor; the per-actor damping
factor is bound by the query but never used, so two actors configured with
different damping factors are damped identically. -/
theorem c8_damping_amended :
    ∀ (df₁ df₂ : ℝ) (g : Bool) (v : Vec3R),
      (apply_movement_damping df₁ g v).x = 0.6 * v.x
        ∧ (apply_movement_damping df₁ g v).z = 0.6 * v.z
        ∧ apply_movement_damping df₁ g v = apply_movement_damping df₂ g v := by
  intro df₁ df₂ g v
  refine ⟨?_, ?_, rfl⟩ <;> simp [apply_movement_damping, mul_comm]

/-- Claim C4: across the movement and damping phases of any tick, the
horizontal speed of a character-controlled actor never exceeds the configured
maximum speed (given it respected the cap at tick start); hence over every
sequence of ticks and Move intents from a horizontally resting spawn state,
the cap holds at the end of every tick; and the clamp rescales both
horizontal axes by one common nonnegative factor, preserving the movement
direction. -/
theorem c4_speed_cap :
    (∀ (acc jump_impulse damping_factor dt : ℝ) (evs : List MovementAction)
        (s : CharState),
        hSpeed s.vel ≤ max_speed →
        hSpeed (char_tick acc jump_impulse damping_factor dt evs s).vel ≤ max_speed)
    ∧ (∀ (acc jump_impulse damping_factor : ℝ)
        (ticks : List (ℝ × List MovementAction)) (vy yaw : ℝ),
        hSpeed (run_ticks acc jump_impulse damping_factor ticks
          { vel := { x := 0, y := vy, z := 0 }, yaw := yaw }).vel ≤ max_speed)
    ∧ (∀ v : Vec3R, ∃ c : ℝ, 0 ≤ c
        ∧ (clamp_horizontal v).x = c * v.x
        ∧ (clamp_horizontal v).z = c * v.z
        ∧ (clamp_horizontal v).y = v.y) := by
  refine ⟨?_, ?_, ?_⟩
  · intro acc jI df dt evs s h
    exact char_tick_hSpeed_le _ _ _ _ _ _ h
  · intro acc jI df ticks vy yaw
    refine run_ticks_hSpeed_le _ _ _ _ _ ?_
    norm_num [hSpeed, max_speed, Real.sqrt_zero]
  · intro v
    by_cases h : hSpeed v > max_speed
    · have h54 : (0 : ℝ) < max_speed := by norm_num [max_speed]
      refine ⟨max_speed / hSpeed v, le_of_lt (div_pos h54 (lt_trans h54 h)),
        ?_, ?_, ?_⟩ <;> simp [clamp_horizontal, h, mul_comm]
    · exact ⟨1, by norm_num, by simp [clamp_horizontal, h], by
        simp [clamp_horizontal, h], by simp [clamp_horizontal, h]⟩

/-- Witness for C4: the actor at rest satisfies the cap, and still does after
a tick. -/
theorem c4_witness :
    hSpeed { x := 0, y := 0, z := 0 } ≤ max_speed
      ∧ hSpeed (char_tick 5000 7 0.9 (1 / 60) []
          { vel := { x := 0, y := 0, z := 0 }, yaw := 0 }).vel ≤ max_speed := by
  have h0 : hSpeed { x := 0, y := 0, z := 0 } ≤ max_speed := by
    norm_num [hSpeed, max_speed, Real.sqrt_zero]
  exact ⟨h0, c4_speed_cap.1 5000 7 0.9 (1 / 60) []
    { vel := { x := 0, y := 0, z := 0 }, yaw := 0 } h0⟩

/-- Counterexample to claim C3: in the combat state established when the
fight scene is entered, in_range is false while current_turn is Enemy, so the
claimed invariant (current_turn = OutOfRange iff not in_range) does not hold
before the first combat-update tick. -/
theorem c3_counterexample :
    initialize_combat.1.in_range = false
      ∧ initialize_combat.1.current_turn ≠ CombatTurn.outOfRange := by
  decide

/-- Claim C3 amended: the invariant current_turn = OutOfRange iff not
in_range holds after every combat-update tick in which both actors are
present (for any pre-state in which an OutOfRange turn implies out of range,
a condition that holds at scene entry and follows from the invariant), and a
tick with a missing actor is a no-op, preserving the state; the invariant
does not hold in the initialized scene-entry state itself, where the forward
direction is violated. -/
theorem c3_turn_invariant_amended :
    (initialize_combat.1.current_turn = CombatTurn.outOfRange →
        initialize_combat.1.in_range = false)
    ∧ (∀ (s : CombatState) (t : TurnTimer) (d : ℚ),
        (s.current_turn = CombatTurn.outOfRange → s.in_range = false) →
        ((manage_turn_based_combat s t (some d)).1.current_turn = CombatTurn.outOfRange
          ↔ (manage_turn_based_combat s t (some d)).1.in_range = false))
    ∧ (∀ (s : CombatState) (t : TurnTimer),
        manage_turn_based_combat s t none = (s, t)) := by
  refine ⟨by decide, ?_, fun s t => rfl⟩
  intro s t d hinv
  rcases s with ⟨turn, ead, pwi, ir, eaf, paf, ptst⟩
  by_cases hd : d ≤ attack_range
  · cases turn <;> cases ir <;> cases eaf <;> cases paf <;>
      simp_all [manage_turn_based_combat, hd]
  · cases turn <;> cases ir <;>
      simp_all [manage_turn_based_combat, hd]

/-- Witness for C3 amended, at the scene-entry state and an in-range tick. -/
theorem c3_witness :
    ((manage_turn_based_combat initialize_combat.1 initialize_combat.2
          (some 1)).1.current_turn = CombatTurn.outOfRange
      ↔ (manage_turn_based_combat initialize_combat.1 initialize_combat.2
          (some 1)).1.in_range = false) :=
  c3_turn_invariant_amended.2.1 initialize_combat.1 initialize_combat.2 1 (by decide)

/-- Counterexample to claim C7: on a tick where in_range goes false to true
while a stale player_attack_finished flag is set, the arbiter forces the
Enemy turn but does not clear the player attack-finished flag, contrary to
the claim that all attack-finished flags are cleared. -/
theorem c7_counterexample :
    (manage_turn_based_combat outOfRangeStalePlayerFlag (TurnTimer.fromSeconds 2)
        (some 1)).1.current_turn = CombatTurn.enemy
      ∧ (manage_turn_based_combat outOfRangeStalePlayerFlag (TurnTimer.fromSeconds 2)
          (some 1)).1.player_attack_finished = true := by
  decide

/-- Claim C7 amended: on the tick where in_range transitions false to true
(and the stale enemy_attack_finished flag is clear), the arbiter forces
current_turn to Enemy, clears enemy_attack_done and player_waiting_for_input,
and re-arms the 2-second turn timer, but it leaves the attack-finished flags
uncleared: player_attack_finished is carried over unchanged (a stale
enemy_attack_finished would instead drive a same-tick transition onward to
Player). -/
theorem c7_range_entry_amended :
    ∀ (s : CombatState) (t : TurnTimer) (d : ℚ),
      s.in_range = false → d ≤ attack_range → s.enemy_attack_finished = false →
      ((manage_turn_based_combat s t (some d)).1.current_turn = CombatTurn.enemy
        ∧ (manage_turn_based_combat s t (some d)).1.player_waiting_for_input = false
        ∧ (manage_turn_based_combat s t (some d)).1.enemy_attack_done = false
        ∧ (manage_turn_based_combat s t (some d)).2 = TurnTimer.fromSeconds 2
        ∧ (manage_turn_based_combat s t (some d)).1.player_attack_finished
            = s.player_attack_finished
        ∧ (manage_turn_based_combat s t (some d)).1.enemy_attack_finished = false) := by
  intro s t d hir hd heaf
  rcases s with ⟨turn, ead, pwi, ir, eaf, paf, ptst⟩
  simp only at hir heaf
  subst hir
  subst heaf
  simp_all [manage_turn_based_combat, hd, TurnTimer.fromSeconds, TurnTimer.reset]

/-- Witness for C7 amended at a concrete out-of-range state entering range. -/
theorem c7_witness :
    (manage_turn_based_combat CombatState.default { elapsed := 1, duration := 2 }
        (some 2)).1.current_turn = CombatTurn.enemy
      ∧ (manage_turn_based_combat CombatState.default { elapsed := 1, duration := 2 }
          (some 2)).1.player_waiting_for_input = false
      ∧ (manage_turn_based_combat CombatState.default { elapsed := 1, duration := 2 }
          (some 2)).1.enemy_attack_done = false
      ∧ (manage_turn_based_combat CombatState.default { elapsed := 1, duration := 2 }
          (some 2)).2 = TurnTimer.fromSeconds 2
      ∧ (manage_turn_based_combat CombatState.default { elapsed := 1, duration := 2 }
          (some 2)).1.player_attack_finished = CombatState.default.player_attack_finished
      ∧ (manage_turn_based_combat CombatState.default { elapsed := 1, duration := 2 }
          (some 2)).1.enemy_attack_finished = false :=
  c7_range_entry_amended CombatState.default { elapsed := 1, duration := 2 } 2
    rfl (by decide) rfl

/-- Counterexample to claim C9: on a tick that starts a new Enemy turn (the
in-range Player to Enemy hand-back), the timer is not re-armed: its elapsed
countdown stays at 1 instead of being reset for the 2-second duration, so
the timer is not armed at turn start. -/
theorem c9_counterexample :
    (manage_turn_based_combat playerTurnAttackDone
        { elapsed := 1, duration := 2 } (some 1)).1.current_turn = CombatTurn.enemy
      ∧ (manage_turn_based_combat playerTurnAttackDone
          { elapsed := 1, duration := 2 } (some 1)).2.elapsed = 1 := by
  decide

/-- Claim C9 amended: the 2-second timer is armed at combat initialization
and re-armed on each out-of-range to in-range transition, and reset when
leaving range, but it is not re-armed at turn starts within range and its
countdown is never ticked or read: the combat-state outcome of every
combat-update tick is independent of the timer state. -/
theorem c9_timer_amended :
    (∀ (s : CombatState) (t₁ t₂ : TurnTimer) (d : Option ℚ),
        (manage_turn_based_combat s t₁ d).1 = (manage_turn_based_combat s t₂ d).1)
    ∧ (∀ (s : CombatState) (t : TurnTimer) (d : ℚ),
        s.in_range = false → d ≤ attack_range →
        (manage_turn_based_combat s t (some d)).2 = TurnTimer.fromSeconds 2)
    ∧ (∀ (s : CombatState) (t : TurnTimer) (d : ℚ),
        ¬ d ≤ attack_range → s.current_turn ≠ CombatTurn.outOfRange →
        (manage_turn_based_combat s t (some d)).2 = t.reset) := by
  refine ⟨?_, ?_, ?_⟩
  · intro s t₁ t₂ d
    cases d with
    | none => rfl
    | some d =>
      rcases s with ⟨turn, ead, pwi, ir, eaf, paf, ptst⟩
      by_cases hd : d ≤ attack_range <;>
        cases turn <;> cases ir <;> cases eaf <;> cases paf <;>
          simp_all [manage_turn_based_combat, hd]
  · intro s t d hir hd
    rcases s with ⟨turn, ead, pwi, ir, eaf, paf, ptst⟩
    simp only at hir
    subst hir
    cases turn <;> cases eaf <;> cases paf <;>
      simp_all [manage_turn_based_combat, hd, TurnTimer.fromSeconds, TurnTimer.reset]
  · intro s t d hd hturn
    rcases s with ⟨turn, ead, pwi, ir, eaf, paf, ptst⟩
    cases turn <;> cases ir <;>
      simp_all [manage_turn_based_combat, hd, TurnTimer.reset]

/-- Witness for C9 amended: the combat-state outcome at a concrete input is
the same for two different timers, and entering range returns a fresh
2-second timer. -/
theorem c9_witness :
    ((manage_turn_based_combat playerTurnWaiting { elapsed := 0, duration := 2 }
          (some 1)).1
        = (manage_turn_based_combat playerTurnWaiting { elapsed := 1, duration := 2 }
          (some 1)).1)
      ∧ (manage_turn_based_combat CombatState.default { elapsed := 1, duration := 2 }
          (some 1)).2 = TurnTimer.fromSeconds 2 :=
  ⟨c9_timer_amended.1 playerTurnWaiting { elapsed := 0, duration := 2 }
      { elapsed := 1, duration := 2 } (some 1),
   c9_timer_amended.2.1 CombatState.default { elapsed := 1, duration := 2 } 1
      rfl (by decide)⟩

/-- Claim C1 evaluated at its failing input: with the combat in an in-range
Player turn waiting for input, the attack-intent flag is observed true on one
tick (which does clear player_waiting_for_input) and false on the next, yet
current_turn is still Player after the false-observation tick — it never
returns to Enemy, because the Player branch of the arbiter fires only on
player_attack_finished, a flag no system of the repository ever sets. -/
theorem c1_player_turn_never_returns_to_enemy :
    (combat_tick playerTurnWaiting (TurnTimer.fromSeconds 2)
        (playerTurnInputs true)).1.current_turn = CombatTurn.player
      ∧ (combat_tick playerTurnWaiting (TurnTimer.fromSeconds 2)
          (playerTurnInputs true)).1.player_waiting_for_input = false
      ∧ (combat_tick
          (combat_tick playerTurnWaiting (TurnTimer.fromSeconds 2)
            (playerTurnInputs true)).1
          (combat_tick playerTurnWaiting (TurnTimer.fromSeconds 2)
            (playerTurnInputs true)).2
          (playerTurnInputs false)).1.current_turn = CombatTurn.player
      ∧ (combat_tick
          (combat_tick playerTurnWaiting (TurnTimer.fromSeconds 2)
            (playerTurnInputs true)).1
          (combat_tick playerTurnWaiting (TurnTimer.fromSeconds 2)
            (playerTurnInputs true)).2
          (playerTurnInputs false)).1.player_attack_finished = false := by
  decide

/-- Claim C2: while in range with the Enemy turn, the arbiter hands the turn
to Player exactly when the enemy-attack-finished flag is set, in that case
setting player_waiting_for_input and clearing the flag; and the flag becomes
set exactly through the detection predicate, namely when the enemy
current-animation index equals the enemy attack-animation constant and the
animation player reports all animations finished. -/
theorem c2_enemy_turn_transition :
    (∀ (s : CombatState) (t : TurnTimer) (d : ℚ),
        d ≤ attack_range → s.in_range = true → s.current_turn = CombatTurn.enemy →
        (((manage_turn_based_combat s t (some d)).1.current_turn = CombatTurn.player
            ↔ s.enemy_attack_finished = true)
          ∧ (s.enemy_attack_finished = true →
              (manage_turn_based_combat s t (some d)).1.player_waiting_for_input = true
                ∧ (manage_turn_based_combat s t (some d)).1.enemy_attack_finished
                    = false)))
    ∧ (∀ (s : CombatState) (enemyPresent : Bool) (anim : Nat) (fin : Option Bool),
        ((detect_enemy_attack_finished s enemyPresent anim fin).enemy_attack_finished
            = true
          ↔ (s.enemy_attack_finished = true
              ∨ (enemyPresent = true ∧ anim = enemy_ATTACK ∧ fin = some true)))) := by
  constructor
  · intro s t d hd hir hturn
    rcases s with ⟨turn, ead, pwi, ir, eaf, paf, ptst⟩
    simp only at hir hturn
    subst hir
    subst hturn
    cases eaf <;> simp_all [manage_turn_based_combat, hd]
  · intro s ep anim fin
    cases ep with
    | false => simp [detect_enemy_attack_finished]
    | true =>
      by_cases ha : anim = enemy_ATTACK
      · by_cases hf : fin = some true
        · simp [detect_enemy_attack_finished, ha, hf]
        · simp [detect_enemy_attack_finished, ha, hf]
      · simp [detect_enemy_attack_finished, ha]

/-- Witness for C2 at a concrete in-range Enemy turn whose attack-finished
flag is set. -/
theorem c2_witness :
    (manage_turn_based_combat
        { enemyTurnInRange with enemy_attack_finished := true }
        (TurnTimer.fromSeconds 2) (some 1)).1.player_waiting_for_input = true
      ∧ (manage_turn_based_combat
          { enemyTurnInRange with enemy_attack_finished := true }
          (TurnTimer.fromSeconds 2) (some 1)).1.enemy_attack_finished = false :=
  (c2_enemy_turn_transition.1
      { enemyTurnInRange with enemy_attack_finished := true }
      (TurnTimer.fromSeconds 2) 1 (by decide) rfl rfl).2 rfl

/-- Counterexample to claim C6: during an in-range Enemy turn the Enemy
Approach AI does not only update the enemy yaw — it also writes the enemy
translation, clamping its height to the ground constant: from height 0 the
enemy transform ends the phase at height -1.65. -/
theorem c6_counterexample :
    (enemy_ai_movement trivialQuatOps 0.016 (some (0, 0, 2))
        (some enemyTurnInRange) enemyAtOrigin).posy = -1.65
      ∧ enemyAtOrigin.posy = 0
      ∧ ((-1.65 : ℝ) ≠ 0) := by
  refine ⟨?_, rfl, by norm_num⟩
  have hc : in_turn_based_combat (some enemyTurnInRange) = true := by decide
  simp [enemy_ai_movement, hc]

/-- Claim C6 amended: on every tick where in_range is true and the turn is
Enemy or Player, provided the player actor is present, the enemy linear
velocity is exactly (0,0,0) at the end of the Enemy Approach AI phase, and
the only changes the AI makes to the enemy transform are the rotation
(slerped toward facing the player) and clamping translation.y to the fixed
ground constant -1.65; translation.x and translation.z are unchanged and the
chase movement is suspended. -/
theorem c6_enemy_freeze_amended :
    ∀ {Q : Type} (ops : QuatOps Q) (dt : ℝ) (p : ℝ × ℝ × ℝ)
      (cs : CombatState) (e : EnemyActor Q),
      cs.in_range = true →
      (cs.current_turn = CombatTurn.enemy ∨ cs.current_turn = CombatTurn.player) →
      ((enemy_ai_movement ops dt (some p) (some cs) e).velx = 0
        ∧ (enemy_ai_movement ops dt (some p) (some cs) e).vely = 0
        ∧ (enemy_ai_movement ops dt (some p) (some cs) e).velz = 0
        ∧ (enemy_ai_movement ops dt (some p) (some cs) e).posx = e.posx
        ∧ (enemy_ai_movement ops dt (some p) (some cs) e).posz = e.posz
        ∧ (enemy_ai_movement ops dt (some p) (some cs) e).posy = -1.65
        ∧ (enemy_ai_movement ops dt (some p) (some cs) e).is_moving = e.is_moving) := by
  intro Q ops dt p cs e h1 h2
  have hc : in_turn_based_combat (some cs) = true := by
    rcases h2 with h | h <;> simp [in_turn_based_combat, h1, h]
  simp [enemy_ai_movement, hc]

/-- Witness for C6 amended at a concrete in-range Enemy turn. -/
theorem c6_witness :
    enemyTurnInRange.in_range = true
      ∧ (enemy_ai_movement trivialQuatOps 0.016 (some (1, 0, 1))
          (some enemyTurnInRange) enemyAtOrigin).velx = 0
      ∧ (enemy_ai_movement trivialQuatOps 0.016 (some (1, 0, 1))
          (some enemyTurnInRange) enemyAtOrigin).vely = 0
      ∧ (enemy_ai_movement trivialQuatOps 0.016 (some (1, 0, 1))
          (some enemyTurnInRange) enemyAtOrigin).velz = 0 :=
  ⟨rfl,
   (c6_enemy_freeze_amended trivialQuatOps 0.016 (1, 0, 1) enemyTurnInRange
      enemyAtOrigin rfl (Or.inl rfl)).1,
   (c6_enemy_freeze_amended trivialQuatOps 0.016 (1, 0, 1) enemyTurnInRange
      enemyAtOrigin rfl (Or.inl rfl)).2.1,
   (c6_enemy_freeze_amended trivialQuatOps 0.016 (1, 0, 1) enemyTurnInRange
      enemyAtOrigin rfl (Or.inl rfl)).2.2.1⟩

end ElysiumDescent
